import Mathlib

/-!
Selector shell of `src/ui/react-app/src/App.jsx`.

A shallow embedding of the `App` component: the single piece of React state
`current`, the constant descriptor list `buttons`, the click handler
`whenClick`, the content resolver `menuRender`, the six placeholder page
components and the JSX tree returned by `App`.

Modelling choices.
* Identifiers are JavaScript numbers used as integers; they are embedded as `Int`
  and `===` on them as equality on `Int`.
* `useState(1)` becomes an explicit state record threaded through the handler.
* `console.log` in `whenClick` is an effect outside the component state; the
  handler returns the logged line next to the new state.
* A JavaScript function falling off the end of a `switch` returns `undefined`;
  `menuRender` therefore returns an `Option`, with `none` for `undefined`.
* JSX is embedded as plain data: a fragment is the list of its children.
-/

namespace App

/-- A rendered DOM node of a placeholder page: the only tag used is `<h3>`. -/
inductive Node where
  | h3 (text : String)
  deriving DecidableEq, Repr

/-- A fragment `<> ... </>` is the list of its children. -/
abbrev Fragment := List Node

/-- One entry of the `buttons` array: `{id, label}`. -/
structure Button where
  id : Int
  label : String
  deriving DecidableEq, Repr

/-- The component state created by `useState`: the variable `current`. -/
structure State where
  current : Int
  deriving DecidableEq, Repr

/-- The value passed to `useState`: `useState(1)`. -/
def init : State := ⟨1⟩

/-- The constant array `buttons` (lines 10-18). -/
def buttons : List Button :=
  [ ⟨0, "Settings"⟩,
    ⟨1, "Projects"⟩,
    ⟨2, "Badges"⟩,
    ⟨3, "Resume"⟩,
    ⟨4, "Portfolio"⟩,
    ⟨5, "Help"⟩ ]

/-- The state setter `setCurrent` returned by `useState`. -/
def setCurrent (id : Int) (_s : State) : State := ⟨id⟩

/-- The handler `whenClick` (lines 20-24): logs `Clicked: id`, then sets `current`
to `id`. The first component is the console line, the second the next state. -/
def whenClick (id : Int) (s : State) : String × State :=
  ("Clicked: " ++ toString id, setCurrent id s)

/-- Component `Settings` (lines 73-79). -/
def Settings : Fragment := [.h3 "This is the Settings page."]

/-- Component `Projects` (lines 81-87). -/
def Projects : Fragment := [.h3 "This is the Projects page."]

/-- Component `Badges` (lines 89-95). -/
def Badges : Fragment := [.h3 "This is the Badges page."]

/-- Component `Resume` (lines 97-103). -/
def Resume : Fragment := [.h3 "This is the Resume page."]

/-- Component `Portfolio` (lines 105-111). -/
def Portfolio : Fragment := [.h3 "This is the Portfolio page."]

/-- Component `Help` (lines 113-119). -/
def Help : Fragment := [.h3 "This is the Help page."]

/-- The resolver `menuRender` (lines 26-43): a `switch` on `current` with the six
cases `0` to `5`, tried in order, and no `default`. -/
def menuRender (s : State) : Option Fragment :=
  if s.current = 0 then some Settings
  else if s.current = 1 then some Projects
  else if s.current = 2 then some Badges
  else if s.current = 3 then some Resume
  else if s.current = 4 then some Portfolio
  else if s.current = 5 then some Help
  else none

/-- A rendered `<button>` of the navigation column (lines 51-61): its `key`, its
`className`, the argument its `onClick` passes to `whenClick`, and its text. -/
structure ButtonElem where
  key : Int
  className : String
  onClick : Int
  label : String
  deriving DecidableEq, Repr

/-- The tree returned by `App`: the children of `div.stacked-buttons` and the
child of `div.menu`. -/
structure Screen where
  stackedButtons : List ButtonElem
  menu : Option Fragment
  deriving DecidableEq, Repr

/-- The body of `buttons.map` (lines 50-62) for one descriptor. -/
def renderButton (s : State) (button : Button) : ButtonElem :=
  { key := button.id
    className := if button.id = s.current then "button-on" else "button-off"
    onClick := button.id
    label := button.label }

/-- The `return` of `App` (lines 46-70). -/
def render (s : State) : Screen :=
  { stackedButtons := buttons.map (renderButton s)
    menu := menuRender s }

/-! ### Vocabulary used by the statements -/

/-- The placeholder content whose heading names the page `label`. -/
def placeholder (label : String) : Fragment :=
  [.h3 ("This is the " ++ label ++ " page.")]

/-- The label that `buttons` gives to `id`, if some descriptor has that id. -/
def labelOf (id : Int) : Option String :=
  (buttons.find? (fun b => decide (b.id = id))).map Button.label

/-- The six placeholder pages defined in the file. -/
def pages : List Fragment := [Settings, Projects, Badges, Resume, Portfolio, Help]

/-- The controls of a screen rendered in the active style. -/
def activeControls (scr : Screen) : List ButtonElem :=
  scr.stackedButtons.filter (fun e => decide (e.className = "button-on"))

/-- Applies a sequence of selection events in order, each to the state left by
the previous one. -/
def run : List Int → State → State
  | [], s => s
  | id :: rest, s => run rest (whenClick id s).2

/-- States reachable from `init` by clicks on the controls generated from
`buttons`: each click calls `whenClick` with the `onClick` argument of a rendered
control. -/
inductive Reachable : State → Prop where
  | init : Reachable init
  | click {s : State} (e : ButtonElem) :
      Reachable s → e ∈ (render s).stackedButtons → Reachable (whenClick e.onClick s).2

/-! ### Auxiliary facts -/

/-- The handler stores its argument, whatever the previous state was. -/
lemma whenClick_snd (id : Int) (s : State) : (whenClick id s).2 = ⟨id⟩ := rfl

/-- An integer between 0 and 5 is one of the six literals of the `switch`. -/
lemma six_cases {id : Int} (h : 0 ≤ id ∧ id ≤ 5) :
    id = 0 ∨ id = 1 ∨ id = 2 ∨ id = 3 ∨ id = 4 ∨ id = 5 := by
  omega

/-- Every rendered control passes the id of a descriptor to `whenClick`, and these
ids lie between 0 and 5. -/
lemma onClick_range {s : State} {e : ButtonElem} (he : e ∈ (render s).stackedButtons) :
    0 ≤ e.onClick ∧ e.onClick ≤ 5 := by
  simp only [render, buttons, renderButton, List.map_cons, List.map_nil, List.mem_cons,
    List.mem_singleton, List.not_mem_nil, or_false] at he
  rcases he with h | h | h | h | h | h <;> subst h <;> exact ⟨by simp, by simp⟩

/-- Reachable states keep `current` between 0 and 5. -/
lemma reachable_range {s : State} (h : Reachable s) : 0 ≤ s.current ∧ s.current ≤ 5 := by
  induction h with
  | init => exact ⟨by decide, by decide⟩
  | click e _ he _ => exact onClick_range he

/-- On the six known ids the resolver returns the placeholder named by the label of
that id in `buttons`. -/
lemma menuRender_known {id : Int} (h : 0 ≤ id ∧ id ≤ 5) :
    ∃ l, labelOf id = some l ∧ menuRender ⟨id⟩ = some (placeholder l) := by
  rcases six_cases h with h | h | h | h | h | h <;> subst h <;> decide

/-- Appending one event to a sequence applies the handler to the state the
sequence leaves. -/
lemma run_snoc (ids : List Int) (a : Int) (s : State) :
    run (ids ++ [a]) s = (whenClick a (run ids s)).2 := by
  induction ids generalizing s with
  | nil => rfl
  | cons x xs ih => exact ih (whenClick x s).2

/-- The state after the first `k + 1` events of a sequence is the handler applied
to the `k`-th id on the state after the first `k` events. -/
lemma run_take_succ (ids : List Int) (s : State) (k : Nat) (hk : k < ids.length) :
    run (ids.take (k + 1)) s = (whenClick ids[k] (run (ids.take k) s)).2 := by
  rw [← List.take_concat_get ids k hk, List.concat_eq_append, run_snoc]

/-- A non-empty sequence of events leaves its last id in the state. -/
lemma run_getLast (ids : List Int) (hne : ids ≠ []) (s : State) :
    run ids s = ⟨ids.getLast hne⟩ := by
  conv_lhs => rw [← List.dropLast_append_getLast hne]
  rw [run_snoc, whenClick_snd]

/-! ### The claims -/

/-- C1. For every id in 0..5 and every prior state, after `whenClick id` the state
`current` equals `id`, exactly one descriptor of `buttons` has that id, and
`menuRender` on the new state (also the content of the rendered screen) is the
placeholder headed "This is the L page." where L is the label of that descriptor;
the descriptors are 0 Settings, 1 Projects, 2 Badges, 3 Resume, 4 Portfolio, 5 Help. -/
theorem whenClick_selects_page (id : Int) (h : 0 ≤ id ∧ id ≤ 5) (s : State) :
    (whenClick id s).2.current = id ∧
    (∃ b, b ∈ buttons ∧ b.id = id ∧ (∀ c ∈ buttons, c.id = id → c = b) ∧
      menuRender (whenClick id s).2 = some [.h3 ("This is the " ++ b.label ++ " page.")] ∧
      (render (whenClick id s).2).menu = some [.h3 ("This is the " ++ b.label ++ " page.")]) ∧
    buttons.map (fun b => (b.id, b.label)) =
      [(0, "Settings"), (1, "Projects"), (2, "Badges"), (3, "Resume"), (4, "Portfolio"),
        (5, "Help")] := by
  refine ⟨rfl, ?_, by decide⟩
  rw [whenClick_snd]
  rcases six_cases h with h | h | h | h | h | h <;> subst h
  · exact ⟨⟨0, "Settings"⟩, by decide, rfl, by decide, by decide, by decide⟩
  · exact ⟨⟨1, "Projects"⟩, by decide, rfl, by decide, by decide, by decide⟩
  · exact ⟨⟨2, "Badges"⟩, by decide, rfl, by decide, by decide, by decide⟩
  · exact ⟨⟨3, "Resume"⟩, by decide, rfl, by decide, by decide, by decide⟩
  · exact ⟨⟨4, "Portfolio"⟩, by decide, rfl, by decide, by decide, by decide⟩
  · exact ⟨⟨5, "Help"⟩, by decide, rfl, by decide, by decide, by decide⟩

/-- Witness of C1 at id 4 from the initial state: the new state holds 4 and the
content is the Portfolio placeholder. -/
theorem whenClick_selects_page_witness :
    ((0 : Int) ≤ 4 ∧ (4 : Int) ≤ 5) ∧ (whenClick 4 init).2.current = 4 ∧
      menuRender (whenClick 4 init).2 = some [.h3 "This is the Portfolio page."] :=
  ⟨by decide, (whenClick_selects_page 4 (by decide) init).1, by decide⟩

/-- C2. In every state reachable from the initial state by clicks on the controls
generated from `buttons`, `current` is the id of some descriptor in `buttons`. -/
theorem reachable_current_mem_buttons (s : State) (h : Reachable s) :
    ∃ b ∈ buttons, b.id = s.current := by
  obtain ⟨c⟩ := s
  have hr := reachable_range h
  simp only at hr
  rcases six_cases hr with h | h | h | h | h | h <;> subst h <;> decide

/-- Witness of C2 at the state reached by clicking the Resume control first and
the Settings control next. -/
theorem reachable_current_mem_buttons_witness :
    Reachable (whenClick 0 (whenClick 3 init).2).2 ∧
      ∃ b ∈ buttons, b.id = (whenClick 0 (whenClick 3 init).2).2.current :=
  have h : Reachable (whenClick 0 (whenClick 3 init).2).2 :=
    Reachable.click ⟨0, "button-off", 0, "Settings"⟩
      (Reachable.click ⟨3, "button-off", 3, "Resume"⟩ Reachable.init (by decide)) (by decide)
  ⟨h, reachable_current_mem_buttons _ h⟩

/-- C3. In every reachable state the rendered navigation list has exactly one
control with class "button-on"; it is the control of the descriptor whose id
equals `current`, and every other control has class "button-off". -/
theorem reachable_one_active_control (s : State) (h : Reachable s) :
    ∃ b ∈ buttons, b.id = s.current ∧
      activeControls (render s) = [⟨b.id, "button-on", b.id, b.label⟩] ∧
      ∀ e ∈ (render s).stackedButtons,
        e ≠ ⟨b.id, "button-on", b.id, b.label⟩ → e.className = "button-off" := by
  obtain ⟨c⟩ := s
  have hr := reachable_range h
  simp only at hr
  rcases six_cases hr with h | h | h | h | h | h <;> subst h <;> decide

/-- Witness of C3 at the initial state, where the one active control is Projects. -/
theorem reachable_one_active_control_witness :
    Reachable init ∧ activeControls (render init) = [⟨1, "button-on", 1, "Projects"⟩] ∧
      ∃ b ∈ buttons, b.id = init.current ∧
        activeControls (render init) = [⟨b.id, "button-on", b.id, b.label⟩] ∧
        ∀ e ∈ (render init).stackedButtons,
          e ≠ ⟨b.id, "button-on", b.id, b.label⟩ → e.className = "button-off" :=
  ⟨Reachable.init, by decide, reachable_one_active_control init Reachable.init⟩

/-- C4. On startup, before any navigation event, `current` equals 1 and
`menuRender` (also the content of the rendered screen) is the Projects placeholder
headed "This is the Projects page.". -/
theorem init_shows_projects :
    init.current = 1 ∧ run [] init = init ∧ menuRender init = some Projects ∧
      Projects = [.h3 "This is the Projects page."] ∧ (render init).menu = some Projects := by
  decide

/-- C5. Selection events are applied in order and each one replaces the state:
for a non-empty sequence of ids in 0..5 run from any starting state, the state
after event `k` is `whenClick` of the `k`-th id on the state after the events
before it, its `current` is the `k`-th id and its content is the placeholder of
that id; the final rendered content is the placeholder of the last id. -/
theorem run_applies_events_in_order (ids : List Int) (hne : ids ≠ [])
    (hr : ∀ i ∈ ids, 0 ≤ i ∧ i ≤ 5) (s : State) :
    (∀ k (hk : k < ids.length),
      run (ids.take (k + 1)) s = (whenClick ids[k] (run (ids.take k) s)).2 ∧
      (run (ids.take (k + 1)) s).current = ids[k] ∧
      ∃ l, labelOf ids[k] = some l ∧
        menuRender (run (ids.take (k + 1)) s) = some (placeholder l)) ∧
    ∃ l, labelOf (ids.getLast hne) = some l ∧
      (render (run ids s)).menu = some (placeholder l) := by
  constructor
  · intro k hk
    have hstep := run_take_succ ids s k hk
    refine ⟨hstep, by rw [hstep, whenClick_snd], ?_⟩
    rw [hstep, whenClick_snd]
    exact menuRender_known (hr _ (List.getElem_mem _))
  · rw [run_getLast ids hne s]
    exact menuRender_known (hr _ (List.getLast_mem hne))

/-- Witness of C5: select 3, select 0, select 5 from the initial state passes
through the Resume and Settings placeholders and ends on the Help placeholder. -/
theorem run_applies_events_in_order_witness :
    ([3, 0, 5] : List Int) ≠ [] ∧ (∀ i ∈ ([3, 0, 5] : List Int), 0 ≤ i ∧ i ≤ 5) ∧
    [menuRender (run [3] init), menuRender (run [3, 0] init), menuRender (run [3, 0, 5] init)]
      = [some Resume, some Settings, some Help] ∧
    ∃ l, labelOf 5 = some l ∧ (render (run [3, 0, 5] init)).menu = some (placeholder l) :=
  ⟨by decide, by decide, by decide,
    (run_applies_events_in_order [3, 0, 5] (by decide) (by decide) init).2⟩

/-- C6. Idempotence of selection: `whenClick` with the current value of `current`
leaves the state unchanged, hence the content and the whole rendered screen (so
the class of every control); and `whenClick id` applied twice gives the same state
and the same screen as applied once. The console line logged by each call is an
effect outside the state and the screen. -/
theorem whenClick_idempotent (s : State) (id : Int) :
    (whenClick s.current s).2 = s ∧
    menuRender (whenClick s.current s).2 = menuRender s ∧
    ((render (whenClick s.current s).2).stackedButtons.map ButtonElem.className
      = (render s).stackedButtons.map ButtonElem.className) ∧
    render (whenClick s.current s).2 = render s ∧
    (whenClick id (whenClick id s).2).2 = (whenClick id s).2 ∧
    render (whenClick id (whenClick id s).2).2 = render (whenClick id s).2 :=
  ⟨rfl, rfl, rfl, rfl, rfl, rfl⟩

/-- C7. Totality over the known ids: the ids occurring in `buttons` are 0..5, and
for each of them `menuRender` returns a defined, non-empty content block, a single
heading with non-empty text. -/
theorem menuRender_total_on_buttons (id : Int) (h : id ∈ buttons.map Button.id) :
    buttons.map Button.id = [0, 1, 2, 3, 4, 5] ∧
    ∃ c, menuRender ⟨id⟩ = some c ∧ c ≠ [] ∧ ∃ t, c = [.h3 t] ∧ t ≠ "" := by
  refine ⟨by decide, ?_⟩
  simp only [buttons, List.map_cons, List.map_nil, List.mem_cons, List.mem_singleton,
    List.not_mem_nil, or_false] at h
  rcases h with h | h | h | h | h | h <;> subst h
  · exact ⟨Settings, rfl, by decide, _, rfl, by decide⟩
  · exact ⟨Projects, rfl, by decide, _, rfl, by decide⟩
  · exact ⟨Badges, rfl, by decide, _, rfl, by decide⟩
  · exact ⟨Resume, rfl, by decide, _, rfl, by decide⟩
  · exact ⟨Portfolio, rfl, by decide, _, rfl, by decide⟩
  · exact ⟨Help, rfl, by decide, _, rfl, by decide⟩

/-- Witness of C7 at id 2, the Badges descriptor. -/
theorem menuRender_total_on_buttons_witness :
    (2 : Int) ∈ buttons.map Button.id ∧
      ∃ c, menuRender ⟨2⟩ = some c ∧ c ≠ [] ∧ ∃ t, c = [.h3 t] ∧ t ≠ "" :=
  ⟨by decide, (menuRender_total_on_buttons 2 (by decide)).2⟩

/-- C8. The mapping from id to content is a bijection between 0..5 and the six
placeholder pages: for ids `i`, `j` in 0..5 equal content forces `i = j`, the
content of `i` is one of the six pages, the six pages are pairwise distinct, and
every page is the content of some id in 0..5. -/
theorem menuRender_bijective_on_known (i j : Int) (hi : 0 ≤ i ∧ i ≤ 5) (hj : 0 ≤ j ∧ j ≤ 5) :
    (menuRender ⟨i⟩ = menuRender ⟨j⟩ → i = j) ∧
    (∃ p ∈ pages, menuRender ⟨i⟩ = some p) ∧
    pages.Nodup ∧ pages.length = 6 ∧
    ∀ p ∈ pages, ∃ k : Int, (0 ≤ k ∧ k ≤ 5) ∧ menuRender ⟨k⟩ = some p := by
  refine ⟨?_, ?_, by decide, rfl, ?_⟩
  · rcases six_cases hi with h | h | h | h | h | h <;>
      rcases six_cases hj with g | g | g | g | g | g <;> subst h <;> subst g <;> decide
  · rcases six_cases hi with h | h | h | h | h | h <;> subst h <;> decide
  · intro p hp
    simp only [pages, List.mem_cons, List.mem_singleton, List.not_mem_nil, or_false] at hp
    rcases hp with h | h | h | h | h | h <;> subst h
    · exact ⟨0, by decide, rfl⟩
    · exact ⟨1, by decide, rfl⟩
    · exact ⟨2, by decide, rfl⟩
    · exact ⟨3, by decide, rfl⟩
    · exact ⟨4, by decide, rfl⟩
    · exact ⟨5, by decide, rfl⟩

/-- Witness of C8 at ids 2 and 4: Badges and Portfolio are different content. -/
theorem menuRender_bijective_on_known_witness :
    ((0 : Int) ≤ 2 ∧ (2 : Int) ≤ 5) ∧ ((0 : Int) ≤ 4 ∧ (4 : Int) ≤ 5) ∧
      menuRender ⟨2⟩ ≠ menuRender ⟨4⟩ :=
  ⟨by decide, by decide, fun h =>
    absurd ((menuRender_bijective_on_known 2 4 (by decide) (by decide)).1 h) (by decide)⟩

/-- C9. For every value of `current` outside 0..5 no case of the `switch` matches
and there is no default: `menuRender` returns `undefined` (`none`), so the rendered
screen has no content. The resolver is a total function with no error result. -/
theorem menuRender_unknown_none (s : State) (h : s.current < 0 ∨ 5 < s.current) :
    menuRender s = none ∧ (render s).menu = none := by
  have hm : menuRender s = none := by
    unfold menuRender
    rw [if_neg (by omega), if_neg (by omega), if_neg (by omega), if_neg (by omega),
      if_neg (by omega), if_neg (by omega)]
  exact ⟨hm, hm⟩

/-- Witness of C9 at `current = 6` and at `current = -1`. -/
theorem menuRender_unknown_none_witness :
    ((⟨6⟩ : State).current < 0 ∨ 5 < (⟨6⟩ : State).current) ∧ menuRender ⟨6⟩ = none ∧
      menuRender ⟨-1⟩ = none :=
  ⟨by decide, (menuRender_unknown_none ⟨6⟩ (by decide)).1,
    (menuRender_unknown_none ⟨-1⟩ (by decide)).1⟩

/-- C10. `whenClick` does not validate its argument: for every id the state after
`whenClick id` holds `id`. For an id outside 0..5 the resulting screen has no
control with class "button-on" (all have "button-off") and no content, and
`current` is then the id of no descriptor in `buttons`. -/
theorem whenClick_unchecked (id : Int) (s : State) :
    (whenClick id s).2.current = id ∧
    (id < 0 ∨ 5 < id →
      activeControls (render (whenClick id s).2) = [] ∧
      (∀ e ∈ (render (whenClick id s).2).stackedButtons, e.className = "button-off") ∧
      (render (whenClick id s).2).menu = none ∧
      menuRender (whenClick id s).2 = none ∧
      ¬ ∃ b ∈ buttons, b.id = (whenClick id s).2.current) := by
  refine ⟨rfl, fun h => ?_⟩
  rw [whenClick_snd]
  have hm : menuRender ⟨id⟩ = none := by
    unfold menuRender
    simp only
    rw [if_neg (by omega), if_neg (by omega), if_neg (by omega), if_neg (by omega),
      if_neg (by omega), if_neg (by omega)]
  have h0 : ¬ (0 : Int) = id := by omega
  have h1 : ¬ (1 : Int) = id := by omega
  have h2 : ¬ (2 : Int) = id := by omega
  have h3 : ¬ (3 : Int) = id := by omega
  have h4 : ¬ (4 : Int) = id := by omega
  have h5 : ¬ (5 : Int) = id := by omega
  refine ⟨?_, ?_, hm, hm, ?_⟩
  · simp [activeControls, render, buttons, renderButton, h0, h1, h2, h3, h4, h5]
  · simp [render, buttons, renderButton, h0, h1, h2, h3, h4, h5]
  · simp [buttons, h0, h1, h2, h3, h4, h5]

/-- Witness of C10 at id 6 from the initial state: the state becomes 6, no control
is active and nothing is shown. -/
theorem whenClick_unchecked_witness :
    ((6 : Int) < 0 ∨ (5 : Int) < 6) ∧ (whenClick 6 init).2.current = 6 ∧
      activeControls (render (whenClick 6 init).2) = [] ∧
      (render (whenClick 6 init).2).menu = none :=
  ⟨by decide, (whenClick_unchecked 6 init).1,
    ((whenClick_unchecked 6 init).2 (by decide)).1,
    ((whenClick_unchecked 6 init).2 (by decide)).2.2.1⟩

end App
